import Mathlib

/-!
Verification model of the `lbuffer` pipe-reblocking utility (src/main.rs).

Bytes are modelled as `Nat`, byte buffers (`Vec<u8>`) as `List Nat`.
Rust `usize` subtraction panics on underflow (debug) or wraps and then
panics on an out-of-bounds index (release); both are modelled as
`Except.error ()` where they can occur.
-/

deriving instance DecidableEq for Except

namespace LBuffer

/-- Model of the `Message` enum: either a completed line buffer or the
stream-end marker carrying `Ok(())` or `Err(e)`. -/
inductive Message where
  | line (v : List Nat)
  | endOk
  | endErr
  deriving DecidableEq, Repr

/-- Model of `find_bytes(haystack, needle)`.

The source iterates `offset` over `0 .. (haystack.len() - needle.len())`
(an exclusive range) and returns the first `offset` at which
`haystack[offset .. offset+needle.len()] == needle`.
When `needle.len() > haystack.len()` the subtraction underflows and the
function panics (modelled by `Except.error ()`); otherwise it returns
`Except.ok` of the search result. -/
def find_bytes (haystack needle : List Nat) : Except Unit (Option Nat) :=
  if haystack.length < needle.length then
    Except.error ()
  else
    Except.ok ((List.range (haystack.length - needle.length)).find?
      (fun off => decide ((haystack.drop off).take needle.length = needle)))

/-- Model of the incremental-scan step of the reader's inner read loop
(the `Ok(bytes)` arm): `held2` is the hold buffer after the freshly read
bytes were appended and `offset` is the hold buffer length before the
append.  The source computes
`search_start = max(0, offset - delimiter.len() + 1)` (here Nat
truncated subtraction `offset + 1 - delim.length`), runs
`find_bytes(&held[search_start..], &delimiter)`, and on a match sets
`leftover = delimiter_off + delimiter.len()` (note: `delimiter_off` is
relative to the slice that starts at `search_start`), copies
`held[leftover..]` onto the recycled empty buffer `nextBuf`, and
truncates `held` to `leftover`.  Returns `(sent record, next hold
buffer)` on a match, `none` on no match, `error` on a `find_bytes`
panic. -/
def readerScanStep (delim held2 : List Nat) (offset : Nat) (nextBuf : List Nat) :
    Except Unit (Option (List Nat × List Nat)) :=
  match find_bytes (held2.drop (offset + 1 - delim.length)) delim with
  | Except.error e => Except.error e
  | Except.ok none => Except.ok none
  | Except.ok (some delimiter_off) =>
      let leftover := delimiter_off + delim.length
      Except.ok (some (held2.take leftover, nextBuf ++ held2.drop leftover))

/-- Outcome of a run of the reader task: the list of messages it managed
to send on `full_sender`, tagged by how the run ended. `ok` is a normal
return after the EOF messages, `panic` is a Rust panic (here only the
`usize` underflow / out-of-bounds panic inside `find_bytes`), `outOfFuel`
is an artifact of the fuelled model and is never reached for the fuel
chosen in `readerRun`. -/
inductive ReaderOutcome where
  | ok (msgs : List Message)
  | panic (msgs : List Message)
  | outOfFuel (msgs : List Message)
  deriving DecidableEq, Repr

/-- Prepend a sent message to the outcome of the rest of the run. -/
def prependMsg (m : Message) : ReaderOutcome → ReaderOutcome
  | ReaderOutcome.ok ms => ReaderOutcome.ok (m :: ms)
  | ReaderOutcome.panic ms => ReaderOutcome.panic (m :: ms)
  | ReaderOutcome.outOfFuel ms => ReaderOutcome.outOfFuel (m :: ms)

mutual

/-- One iteration of the reader's outer loop, entered with
`hold_buf = Some held` after receiving a recycled empty buffer
(recycled buffers are always empty, per the source's
`assert_eq!(next_buf.len(), 0)`; the coordinator is modelled as
supplying them indefinitely).  The source first runs
`find_bytes(&held, &delimiter)`: on a match it sends
`held[..delimiter_off + delimiter.len()]`, keeps the remainder as the
new hold buffer, and continues; on no match it enters the inner read
loop with `offset = held.len()`. -/
def readerLoop (delim : List Nat) : Nat → List Nat → List (List Nat) → ReaderOutcome
  | 0, _, _ => ReaderOutcome.outOfFuel []
  | Nat.succ fuel, held, chunks =>
    match find_bytes held delim with
    | Except.error _ => ReaderOutcome.panic []
    | Except.ok (some delimiter_off) =>
        let leftover := delimiter_off + delim.length
        prependMsg (Message.line (held.take leftover))
          (readerLoop delim fuel (held.drop leftover) chunks)
    | Except.ok none => readerInner delim fuel held held.length chunks

/-- The reader's inner read loop.  `chunks` is the schedule of byte
chunks successive `read` calls return (each at most one page); after the
schedule is exhausted `read` returns `Ok(0)` (end of stream).  On EOF
the source truncates `held` to `offset` and sends it as a line followed
by `End(Ok(()))`; on `Ok(bytes)` it appends the chunk (resize to the
next page boundary, read into `held[offset..]`, truncate to
`offset + bytes` — net effect `held ++ chunk`) and applies
`readerScanStep`. -/
def readerInner (delim : List Nat) : Nat → List Nat → Nat → List (List Nat) → ReaderOutcome
  | 0, _, _, _ => ReaderOutcome.outOfFuel []
  | Nat.succ _, held, offset, [] =>
      ReaderOutcome.ok [Message.line (held.take offset), Message.endOk]
  | Nat.succ fuel, held, offset, c :: cs =>
      match readerScanStep delim (held ++ c) offset [] with
      | Except.error _ => ReaderOutcome.panic []
      | Except.ok (some (record, newHold)) =>
          prependMsg (Message.line record) (readerLoop delim fuel newHold cs)
      | Except.ok none => readerInner delim fuel (held ++ c) (offset + c.length) cs

end

/-- A full run of the reader task on a read schedule `chunks`.  The
source starts with `hold_buf = None`; the first outer-loop iteration
only stores the received recycled (empty) buffer as the hold buffer, so
the run is `readerLoop` started on an empty hold buffer.  The fuel is
large enough that `outOfFuel` is unreachable: every step either consumes
a chunk or strictly shortens the hold buffer. -/
def readerRun (delim : List Nat) (chunks : List (List Nat)) : ReaderOutcome :=
  readerLoop delim ((chunks.map List.length).sum * 2 + chunks.length + 4) [] chunks

/-- The messages a run managed to send, in order. -/
def ReaderOutcome.messages : ReaderOutcome → List Message
  | ReaderOutcome.ok ms => ms
  | ReaderOutcome.panic ms => ms
  | ReaderOutcome.outOfFuel ms => ms

/-- Concatenation of the `line` payloads among a list of messages, in
order: the byte stream the emitted Records reassemble to. -/
def concatRecords : List Message → List Nat
  | [] => []
  | Message.line v :: rest => v ++ concatRecords rest
  | _ :: rest => concatRecords rest

/-- Model of the `Args` struct (the validated configuration).  `files`
is kept only by name count irrelevant fields reduced: the delimiter is
already unescaped to raw bytes. -/
structure Args where
  files : List (List Nat)
  buffer_lines : Nat
  high_wm : Nat
  low_wm : Nat
  clobber : Bool
  delimiter : List Nat
  deriving DecidableEq, Repr

/-- The clap defaults: `buffer_lines = 1024`, `high_wm = 1`,
`low_wm = 1023`, delimiter `"\n"`. -/
def defaultArgs : Args :=
  { files := [], buffer_lines := 1024, high_wm := 1, low_wm := 1023,
    clobber := false, delimiter := [10] }

/-- Model of `Args::validate`: the process is exited with a
configuration error (modelled as `false`) iff `high_wm >= buffer_lines`
or `low_wm >= buffer_lines`.  The `-` file check only prints a warning
and rejects nothing. -/
def Args.validate (a : Args) : Bool :=
  decide (a.high_wm < a.buffer_lines) && decide (a.low_wm < a.buffer_lines)

/-- Observable trace of `amain`: the channel and queue capacities it
constructs, how many tasks it spawns, the bytes it reads and writes,
and its return value. -/
structure AmainTrace where
  fullChannelCap : Nat
  emptyChannelCap : Nat
  queueCap : Nat
  tasksSpawned : Nat
  bytesRead : List Nat
  bytesWritten : List Nat
  result : Except Unit Unit
  deriving DecidableEq, Repr

/-- Model of `amain`: the live code constructs the two bounded channels
(capacity 2 each) and the `ArrayQueue` of capacity `buffer_lines`, then
immediately `return Ok(())` — the whole reader/writer/coordinator loop
is commented out, so no task is spawned and no byte is read or
written. -/
def amain (a : Args) : AmainTrace :=
  { fullChannelCap := 2, emptyChannelCap := 2, queueCap := a.buffer_lines,
    tasksSpawned := 0, bytesRead := [], bytesWritten := [],
    result := Except.ok () }

/-- Model of `main`: parse (assumed done), validate — exiting with
clap's error status 2 on a validation failure — then return `amain`'s
result as the exit status (0 for `Ok`).  `stdin` models the ambient
process standard input, which `amain` never touches. -/
def mainRun (a : Args) (_stdin : List Nat) : Nat :=
  if a.validate then
    match (amain a).result with
    | Except.ok _ => 0
    | Except.error _ => 1
  else 2

/-- Modelled from the spec: the Watermark Coordinator's `writing`-flag
update, executed after every queue size change.  The coordinator main
loop in `amain` is commented out in the source (no working control
flow); this follows the spec's state machine — and the commented
outline, which agrees with it: first `if queue.len() >= high_wm
{ writing = true; }`, then `if queue.len() == 0 { writing = false; }`. -/
def writingStep (high_wm : Nat) (writing : Bool) (qlen : Nat) : Bool :=
  if qlen = 0 then false else (if high_wm ≤ qlen then true else writing)

/-- Observable trace of the writer task: the bytes it wrote to the sink
in order, the buffers it released back to the recycler, whether it
flushed the sink, and its result. -/
structure WriterTrace where
  written : List Nat
  released : List (List Nat)
  flushed : Bool
  result : Except Unit Unit
  deriving DecidableEq, Repr

/-- Model of `fn writer` as it stands in the source: it locks stdout and
immediately returns `Ok(())`.  It never receives from its channel,
writes no byte, releases no buffer, and does not flush.  `msgs` models
the sequence of Records and the end marker available for delivery on
the channel, all of which the stub ignores. -/
def writer (_msgs : List Message) : WriterTrace :=
  { written := [], released := [], flushed := false,
    result := Except.ok () }

/-!  Theorems settling the claims.  -/

/-- Claim C1: the round-trip property fails on the code.  With delimiter
`"\n"` and input `"a\n"` the reader panics (the `usize` underflow in
`find_bytes` on the initial, empty hold buffer at the second outer-loop
iteration) having emitted no Record, so the concatenation of the emitted
Records is not the input. -/
theorem roundtrip_fails_reader_panics :
    readerRun [10] [[97, 10]] = ReaderOutcome.panic [] ∧
    concatRecords (readerRun [10] [[97, 10]]).messages ≠ [97, 10] :=
  ⟨rfl, by decide⟩

/-- Claim C2: for every configuration accepted by validation, `amain`
returns `Ok(())` right after constructing its two bounded channels and
the queue: it spawns no task, reads and writes nothing, and the process
exit status is 0 whatever is on standard input. -/
theorem amain_returns_immediately (a : Args) (stdin : List Nat)
    (h : a.validate = true) :
    (amain a).result = Except.ok () ∧ (amain a).tasksSpawned = 0 ∧
    (amain a).bytesRead = [] ∧ (amain a).bytesWritten = [] ∧
    mainRun a stdin = 0 := by
  refine ⟨rfl, rfl, rfl, rfl, ?_⟩
  simp [mainRun, h, amain]

/-- Witness for claim C2 at the default configuration with a non-empty
standard input. -/
theorem amain_returns_immediately_witness :
    (amain defaultArgs).result = Except.ok () ∧
    (amain defaultArgs).tasksSpawned = 0 ∧
    (amain defaultArgs).bytesRead = [] ∧
    (amain defaultArgs).bytesWritten = [] ∧
    mainRun defaultArgs [97, 10] = 0 :=
  amain_returns_immediately defaultArgs [97, 10] (by decide)

/-- Claim C3: fails on the code.  In `held = "a\n"` with delimiter
`"\n"` a delimiter occurrence ends at the final byte (index 1, shown by
the second conjunct), yet `find_bytes` reports no match: its loop range
`0..(haystack.len() - needle.len())` excludes the last admissible
offset. -/
theorem find_bytes_misses_final_byte_match :
    find_bytes [97, 10] [10] = Except.ok none ∧
    (List.drop 1 [97, 10]).take 1 = [10] :=
  ⟨rfl, rfl⟩

/-- Claim C4: fails on the code.  With delimiter `"\n"`, hold buffer
`"abc\nd"` obtained by appending the chunk `"c\nd"` at `offset = 2`, the
scan starts at `search_start = 2` and finds the delimiter, but
`leftover = delimiter_off + delimiter.len() = 2` is relative to the
scanned suffix (the source never adds `search_start` back), so the
Record sent is `"ab"` and the next hold buffer `"c\nd"`, instead of the
absolute split `"abc\n"` / `"d"` (second conjunct: the sent Record is
not `held.take 4`). -/
theorem scan_step_uses_relative_offset :
    readerScanStep [10] [97, 98, 99, 10, 100] 2 [] =
      Except.ok (some ([97, 98], [99, 10, 100])) ∧
    ([97, 98] : List Nat) ≠ List.take 4 [97, 98, 99, 10, 100] :=
  ⟨rfl, by decide⟩

/-- Claim C5: fails on the code.  With delimiter `"||"` and the input
`"a||b"` delivered either as two reads `"a|"`, `"|b"` or as a single
read, the reader panics in `find_bytes` before consuming any input, and
in particular the record `"a||"` for the occurrence spanning the read
boundary is never emitted. -/
theorem spanning_delimiter_never_emitted :
    readerRun [124, 124] [[97, 124], [124, 98]] = ReaderOutcome.panic [] ∧
    readerRun [124, 124] [[97, 124, 124, 98]] = ReaderOutcome.panic [] ∧
    Message.line [97, 124, 124] ∉
      (readerRun [124, 124] [[97, 124], [124, 98]]).messages :=
  ⟨rfl, rfl, by decide⟩

/-- Claim C6: fails on the code.  With a delimiter strictly longer than
the buffer — the empty buffer, or `"a"` against `"||"` —
`haystack.len() - needle.len()` underflows and `find_bytes` panics
instead of returning "not found". -/
theorem find_bytes_panics_on_long_needle :
    find_bytes [] [10] = Except.error () ∧
    find_bytes [97] [124, 124] = Except.error () :=
  ⟨rfl, rfl⟩

/-- Claim C7: fails on the code.  On zero-byte input the reader does
emit zero Records, but it never reaches the end-of-stream path: it
panics in `find_bytes` on the empty hold buffer, so no Stream End
Marker with success is sent and there is no clean termination. -/
theorem empty_input_panics_before_end_marker :
    readerRun [10] [] = ReaderOutcome.panic [] ∧
    Message.endOk ∉ (readerRun [10] []).messages ∧
    concatRecords (readerRun [10] []).messages = [] :=
  ⟨rfl, by decide, rfl⟩

/-- Counterexample to claim C8: validation accepts the default
configuration (`buffer_lines = 1024`, `high_wm = 1`, `low_wm = 1023`),
whose watermarks do not satisfy `low_wm < high_wm`. -/
theorem default_config_low_wm_above_high_wm :
    Args.validate defaultArgs = true ∧
    ¬ defaultArgs.low_wm < defaultArgs.high_wm := by
  decide

/-- Claim C8 as amended: validation accepts a configuration exactly when
`high_wm < buffer_lines` and `low_wm < buffer_lines`; no order between
`low_wm` and `high_wm` is enforced, and any configuration violating
either bound is rejected before any I/O. -/
theorem validate_accepts_iff_bounds (a : Args) :
    a.validate = true ↔
      (a.high_wm < a.buffer_lines ∧ a.low_wm < a.buffer_lines) := by
  simp [Args.validate]

/-- Witness for the amended claim C8 at the default configuration. -/
theorem validate_accepts_iff_bounds_witness :
    defaultArgs.high_wm < defaultArgs.buffer_lines ∧
    defaultArgs.low_wm < defaultArgs.buffer_lines :=
  (validate_accepts_iff_bounds defaultArgs).mp (by decide)

/-- Claim C9: for every positive `high_wm`, the `writing` flag becomes
true whenever the queue length reaches `high_wm`, stays true across any
update while the queue is non-empty, and becomes false exactly when the
queue empties. -/
theorem writing_flag_hysteresis (high_wm : Nat) (w : Bool) (qlen : Nat)
    (h : 1 ≤ high_wm) :
    (high_wm ≤ qlen → writingStep high_wm w qlen = true) ∧
    (w = true → 1 ≤ qlen → writingStep high_wm w qlen = true) ∧
    writingStep high_wm w 0 = false := by
  refine ⟨fun h1 => ?_, fun hw1 h1 => ?_, ?_⟩
  · simp only [writingStep]
    rw [if_neg (by omega : ¬ qlen = 0), if_pos h1]
  · simp only [writingStep]
    rw [if_neg (by omega : ¬ qlen = 0)]
    split
    · rfl
    · exact hw1
  · simp [writingStep]

/-- Witness for claim C9 at the spec's scenario `high_wm = 2`: the flag
turns true at length 2, remains true at length 1, and clears at 0. -/
theorem writing_flag_hysteresis_witness :
    writingStep 2 false 2 = true ∧ writingStep 2 true 1 = true ∧
    writingStep 2 true 0 = false :=
  ⟨(writing_flag_hysteresis 2 false 2 (by decide)).1 (by decide),
   (writing_flag_hysteresis 2 true 1 (by decide)).2.1 rfl (by decide),
   (writing_flag_hysteresis 2 true 0 (by decide)).2.2⟩

/-- Claim C10: fails on the code.  `fn writer` is a live stub that
locks stdout and returns `Ok(())` unconditionally.  Delivered the
Record `"a"` followed by an error-carrying Stream End Marker, it writes
nothing (in particular not the Record's contents), releases no buffer,
never flushes, and reports success instead of propagating the stored
error. -/
theorem writer_stub_ignores_records :
    writer [Message.line [97], Message.endErr] =
      { written := [], released := [], flushed := false,
        result := Except.ok () } ∧
    (writer [Message.line [97], Message.endErr]).written ≠ [97] ∧
    (writer [Message.line [97], Message.endErr]).result ≠
      Except.error () :=
  ⟨rfl, by decide, by decide⟩

end LBuffer
